import Mathlib

set_option linter.unusedVariables false

/-!
Verification development for the transfer-credit evaluation backend
(`backend/app`): a shallow embedding of the matching-and-lifecycle
pipeline (similarity matcher, Gemini ranking client, transcript
materialisation, evaluation decisions, PDF text extraction) together with
theorems about its behaviour.

Database tables are embedded as Lean lists in insertion order; SQLAlchemy
autoincrement primary keys are embedded as explicit `next*Id` counters in
the database state.  Committed session state is the state returned by each
operation; an operation that raises an HTTP exception before any commit
returns the unchanged database.  The external Gemini model response is an
input parameter (`Except Unit (List MatchDict)`): `.error` stands for a
raised exception or unparsable output, `.ok ms` for a parsed JSON array.
-/

namespace ProcessMaker

/-- Submission status. Modelled from the spec: the second-generation
Submission module (the one whose status enum the routers and
`similarity.py` use, with `ready_for_review` and `failed`) is absent from
`src/`; `src/backend/app/models/submission.py` holds only the
first-generation `StudentSubmission` enum. Values follow spec §4.5 and the
constants named in the routers and in `similarity.py`. -/
inductive SubmissionStatus where
  | pending
  | processing
  | ready_for_review
  | in_review
  | completed
  | failed
deriving DecidableEq, Repr

/-- Evaluation decisions, from `models/evaluation.py` (`EvaluationDecision`). -/
inductive EvaluationDecision where
  | pending
  | approved
  | denied
  | more_info_needed
deriving DecidableEq, Repr

/-- Submission row. Modelled from the spec: the second-generation
Submission model is absent from `src/`; the fields are the ones the
routers and `similarity.py` read and write (`status`, `processing_error`,
`completed_at`). Timestamps are abstract `Nat` instants. -/
structure Submission where
  id : Nat
  student_id : Nat
  status : SubmissionStatus
  processing_error : Option String := none
  completed_at : Option Nat := none
deriving DecidableEq, Repr

/-- Extracted-course row, from `models/course.py` (`ExtractedCourse`).
`credits` (SQL `Numeric(3,1)`) is embedded as an exact rational. -/
structure ExtractedCourse where
  id : Nat
  submission_id : Nat
  course_code : Option String := none
  course_name : Option String := none
  credits : Option Rat := none
  grade : Option String := none
  source_university : Option String := none
  course_description : Option String := none
  learning_outcomes : Option String := none
deriving DecidableEq, Repr

/-- Target catalog row, from `models/course.py` (`TargetCourse`). -/
structure TargetCourse where
  id : Nat
  course_code : String
  course_name : String
  department : Option String := none
  credits : Option Rat := none
  description : Option String := none
  learning_outcomes : Option String := none
  is_active : Nat := 1
deriving DecidableEq, Repr

/-- Course-match row, from `models/course.py` (`CourseMatch`). The JSON
column `gemini_reasoning` is embedded by its two keys
(`key_similarities`, `important_differences`). `target_course_id` is an
`Option` because `_match_single_course` inserts `match.get("target_course_id")`,
which is `None` when the key is absent from the model's answer. -/
structure CourseMatch where
  id : Nat
  extracted_course_id : Nat
  target_course_id : Option Nat
  similarity_score : Rat
  match_explanation : String
  match_rank : Nat
  key_similarities : List String
  important_differences : List String
deriving DecidableEq, Repr

/-- Evaluation row. Modelled from the spec: the second-generation
Evaluation model (keyed by extracted course) is absent from `src/` —
`src/backend/app/models/evaluation.py` holds the first-generation model
keyed by `transfer_course_id`.  Fields follow the spec (§3) and the
attributes written by `routers/evaluations.py` and `routers/uploads.py`:
`extracted_course_id`, `evaluator_id`, `decision`,
`approved_target_course_id`, `evaluator_notes`, `decided_at`.  The spec
makes `extracted_course_id` unique ("at most one per ExtractedCourse
(enforced uniquely)"); that constraint is stated as `evaluationsUnique`
below. -/
structure Evaluation where
  id : Nat
  extracted_course_id : Nat
  evaluator_id : Option Nat := none
  decision : EvaluationDecision := .pending
  approved_target_course_id : Option Nat := none
  evaluator_notes : Option String := none
  decided_at : Option Nat := none
deriving DecidableEq, Repr

/-- The relational database state: each table as a list of rows in
insertion order, plus autoincrement counters for the primary keys the
pipeline allocates. -/
structure DB where
  submissions : List Submission := []
  extractedCourses : List ExtractedCourse := []
  targetCourses : List TargetCourse := []
  courseMatches : List CourseMatch := []
  evaluations : List Evaluation := []
  nextCourseId : Nat := 1
  nextMatchId : Nat := 1
  nextEvaluationId : Nat := 1
deriving DecidableEq, Repr

/-- Embeds `UPDATE ... WHERE p`: rewrite every row satisfying `p` with `f`. -/
def updateWhere (l : List α) (p : α → Bool) (f : α → α) : List α :=
  l.map fun x => if p x then f x else x

/-- Embeds `db.query(Submission).filter(Submission.id == sid).first()`. -/
def getSubmission (db : DB) (sid : Nat) : Option Submission :=
  db.submissions.find? (fun s => s.id == sid)

/-- Apply `f` to the submission with id `sid` (attribute writes followed by
one `commit()` in the source). -/
def updSubmission (db : DB) (sid : Nat) (f : Submission → Submission) : DB :=
  { db with submissions := updateWhere db.submissions (fun s => s.id == sid) f }

/-- Python truthiness of an optional string (`None` and `""` are falsy). -/
def pyTruthyStr : Option String → Bool
  | none => false
  | some s => !s.data.isEmpty

/-- Python truthiness of an optional integer (`None` and `0` are falsy). -/
def pyTruthyNat : Option Nat → Bool
  | none => false
  | some n => n != 0

/-- Embeds `float(x) if x else None` on an optional numeric column: both `None`
and `0` map to `None`. -/
def pyFloatOpt : Option Rat → Option Rat
  | none => none
  | some r => if r == 0 then none else some r

/-! ## Gemini ranking client (`services/gemini_service.py`) -/

/-- The `source_dict` built by `_match_single_course` and consumed by
`find_similar_courses`. -/
structure SourceDict where
  course_code : Option String := none
  course_name : Option String := none
  credits : Option Rat := none
  course_description : Option String := none
  learning_outcomes : Option String := none
deriving DecidableEq, Repr

/-- One entry of the `target_dicts` list built by the matcher. -/
structure TargetDict where
  id : Nat
  course_code : String
  course_name : String
  credits : Option Rat := none
  description : Option String := none
  learning_outcomes : Option String := none
deriving DecidableEq, Repr

/-- One JSON object of the model's ranked answer; every key may be absent
(`match.get` is used on the consumer side). -/
structure MatchDict where
  target_course_id : Option Nat := none
  similarity_score : Option Rat := none
  explanation : Option String := none
  key_similarities : Option (List String) := none
  important_differences : Option (List String) := none
deriving DecidableEq, Repr

/-- Embeds `GeminiService.find_similar_courses` (`gemini_service.py`).
`hasModel` is the presence of `settings.GEMINI_API_KEY` (so of
`self.model`); `modelResponse` is the outcome of the model call plus JSON
parsing, `.error` standing for a raised exception or unparsable output
(the `except` branch returns `[]`).  On success the parsed list is
truncated to `top_n` (`matches[:top_n]`). -/
def find_similar_courses (hasModel : Bool) (source_course : SourceDict)
    (target_courses : List TargetDict)
    (modelResponse : Except Unit (List MatchDict)) (top_n : Nat := 3) :
    List MatchDict :=
  if !hasModel || target_courses.isEmpty then []
  else
    match modelResponse with
    | .error _ => []
    | .ok ms => ms.take top_n

/-! ## Similarity matcher (`services/similarity.py`) -/

/-- The `source_dict` built at the top of `_match_single_course`. -/
def sourceDictOf (c : ExtractedCourse) : SourceDict :=
  { course_code := c.course_code
    course_name := c.course_name
    credits := pyFloatOpt c.credits
    course_description := c.course_description
    learning_outcomes := c.learning_outcomes }

/-- One entry of the `target_dicts` list built by
`match_courses_for_submission` and `rematch_course`. -/
def targetDictOf (tc : TargetCourse) : TargetDict :=
  { id := tc.id
    course_code := tc.course_code
    course_name := tc.course_name
    credits := pyFloatOpt tc.credits
    description := tc.description
    learning_outcomes := tc.learning_outcomes }

/-- The `for rank, match in enumerate(matches, 1)` insertion loop of
`_match_single_course`: build the new `CourseMatch` rows, ranks starting
at `rank`, autoincrement ids starting at `startId`. -/
def mkCourseMatches (ecid : Nat) (startId : Nat) (rank : Nat) :
    List MatchDict → List CourseMatch
  | [] => []
  | m :: ms =>
      { id := startId
        extracted_course_id := ecid
        target_course_id := m.target_course_id
        similarity_score := m.similarity_score.getD 0
        match_explanation := m.explanation.getD ""
        match_rank := rank
        key_similarities := m.key_similarities.getD []
        important_differences := m.important_differences.getD [] }
        :: mkCourseMatches ecid (startId + 1) (rank + 1) ms

/-- Embeds `SimilarityMatcher._match_single_course`: call
`find_similar_courses` (default `top_n = 3`), delete the existing
`CourseMatch` rows of this course, insert the new ones, commit. -/
def matchSingleCourse (db : DB) (ext : ExtractedCourse)
    (targetDicts : List TargetDict) (hasModel : Bool)
    (response : Except Unit (List MatchDict)) : DB :=
  let ms := find_similar_courses hasModel (sourceDictOf ext) targetDicts response
  { db with
      courseMatches :=
        db.courseMatches.filter (fun m => !(m.extracted_course_id == ext.id))
          ++ mkCourseMatches ext.id db.nextMatchId 1 ms
      nextMatchId := db.nextMatchId + ms.length }

/-- The per-course loop of `match_courses_for_submission`; `oracle` gives
the model-response outcome for each extracted course (keyed by its id). -/
def matchAll (db : DB) (courses : List ExtractedCourse)
    (targetDicts : List TargetDict) (hasModel : Bool)
    (oracle : Nat → Except Unit (List MatchDict)) : DB :=
  courses.foldl (fun d c => matchSingleCourse d c targetDicts hasModel (oracle c.id)) db

/-- Embeds `SimilarityMatcher.match_courses_for_submission`. The `try/except`
wrapper of the source only matters for raised exceptions; in this pure
embedding every step is total, so only the normal path is reachable. -/
def match_courses_for_submission (db : DB) (sid : Nat) (hasModel : Bool)
    (oracle : Nat → Except Unit (List MatchDict)) : DB × Bool :=
  match getSubmission db sid with
  | none => (db, false)
  | some _ =>
    let db1 := updSubmission db sid (fun s => { s with status := .processing })
    let extracted := db1.extractedCourses.filter (fun c => c.submission_id == sid)
    if extracted.isEmpty then
      (updSubmission db1 sid (fun s =>
        { s with status := .failed
                 processing_error := some "No courses extracted from transcript" }),
       false)
    else
      let targets := db1.targetCourses.filter (fun tc => tc.is_active == 1)
      if targets.isEmpty then
        (updSubmission db1 sid (fun s => { s with status := .ready_for_review }), true)
      else
        let targetDicts := targets.map targetDictOf
        let db2 := matchAll db1 extracted targetDicts hasModel oracle
        (updSubmission db2 sid (fun s => { s with status := .ready_for_review }), true)

/-- Embeds `SimilarityMatcher.rematch_course`. -/
def rematch_course (db : DB) (extracted_course_id : Nat) (hasModel : Bool)
    (response : Except Unit (List MatchDict)) : DB × Bool :=
  match db.extractedCourses.find? (fun c => c.id == extracted_course_id) with
  | none => (db, false)
  | some ext =>
    let targets := db.targetCourses.filter (fun tc => tc.is_active == 1)
    let targetDicts := targets.map targetDictOf
    (matchSingleCourse db ext targetDicts hasModel response, true)

/-! ## Transcript materialisation (`routers/uploads.py`) -/

/-- One dictionary of the Gemini transcript-extraction answer, as consumed
by `process_transcript_background` via `course_data.get(...)`. -/
structure CourseData where
  course_code : Option String := none
  course_name : Option String := none
  credits : Option Rat := none
  grade : Option String := none
  university_name : Option String := none
deriving DecidableEq, Repr

/-- The `for course_data in courses_data` loop of
`process_transcript_background`: for each dictionary create one
`ExtractedCourse` row under the submission, `flush()` (allocating its id),
and create one `Evaluation` row in `pending` state referencing it; one
`commit()` at the end makes the whole batch visible at once. -/
def saveExtractedCourses (db : DB) (sid : Nat) : List CourseData → DB
  | [] => db
  | d :: ds =>
      let c : ExtractedCourse :=
        { id := db.nextCourseId
          submission_id := sid
          course_code := d.course_code
          course_name := d.course_name
          credits := d.credits
          grade := d.grade
          source_university := d.university_name }
      let e : Evaluation :=
        { id := db.nextEvaluationId
          extracted_course_id := c.id
          decision := .pending }
      saveExtractedCourses
        { db with
            extractedCourses := db.extractedCourses ++ [c]
            evaluations := db.evaluations ++ [e]
            nextCourseId := db.nextCourseId + 1
            nextEvaluationId := db.nextEvaluationId + 1 }
        sid ds

/-- Embeds `process_transcript_background` (`routers/uploads.py`): load the
submission (return unchanged if missing), set status `processing`, extract
the transcript text (`pdfText.error msg` stands for a raised extraction
exception, caught by the handler's `except` which marks the submission
`failed` with `str(e)`), materialise the Gemini course dictionaries
(`courses_data`; Gemini catches its own exceptions and returns `[]`), then
run the similarity matcher. -/
def process_transcript_background (db : DB) (sid : Nat)
    (pdfText : Except String Unit) (courses_data : List CourseData)
    (hasModel : Bool) (oracle : Nat → Except Unit (List MatchDict)) : DB :=
  match getSubmission db sid with
  | none => db
  | some _ =>
    let db1 := updSubmission db sid (fun s => { s with status := .processing })
    match pdfText with
    | .error msg =>
        updSubmission db1 sid (fun s =>
          { s with status := .failed, processing_error := some msg })
    | .ok _ =>
        let db2 := saveExtractedCourses db1 sid courses_data
        (match_courses_for_submission db2 sid hasModel oracle).1

/-! ## Evaluation decisions (`routers/evaluations.py`) -/

/-- The error outcomes of the evaluation handlers (`HTTPException`). -/
inductive HttpError where
  | notFound (detail : String)
  | badRequest (detail : String)
deriving DecidableEq, Repr

/-- The JSON body of `POST /evaluate/{course_id}` (`EvaluateRequest`). -/
structure EvaluateRequest where
  decision : EvaluationDecision
  approved_target_course_id : Option Nat := none
  notes : Option String := none
deriving DecidableEq, Repr

/-- The JSON body of `PUT /update-decision/{evaluation_id}`
(`EvaluationUpdateRequest`). -/
structure EvaluationUpdateRequest where
  decision : Option EvaluationDecision := none
  approved_target_course_id : Option Nat := none
  notes : Option String := none
deriving DecidableEq, Repr

/-- The success payload of both evaluation handlers (the fields the claims
are about). -/
structure EvalResponse where
  evaluation_id : Nat
  decision : EvaluationDecision
deriving DecidableEq, Repr

/-- The "update or create evaluation" block of `evaluate_course`:
`ext_course.evaluation` (the unique evaluation row referencing the
course), updated in place when it exists, created otherwise; returns the
updated database and the id of the touched row. -/
def upsertEvaluation (db : DB) (course_id : Nat) (req : EvaluateRequest)
    (evaluator_id : Nat) (now : Nat) : DB × Nat :=
  let fields : Evaluation → Evaluation := fun e =>
    { e with
        evaluator_id := some evaluator_id
        decision := req.decision
        approved_target_course_id :=
          if req.decision == .approved then req.approved_target_course_id else none
        evaluator_notes := req.notes
        decided_at := some now }
  match db.evaluations.find? (fun e => e.extracted_course_id == course_id) with
  | some e =>
      ({ db with
          evaluations := updateWhere db.evaluations (fun x => x.id == e.id) fields },
       e.id)
  | none =>
      let e : Evaluation := fields { id := db.nextEvaluationId
                                     extracted_course_id := course_id }
      ({ db with
          evaluations := db.evaluations ++ [e]
          nextEvaluationId := db.nextEvaluationId + 1 },
       e.id)

/-- The "check if all courses in submission are evaluated" expression of
`evaluate_course`: every extracted course of the submission has an
evaluation row whose decision is not `pending` (`c.evaluation and
c.evaluation.decision != EvaluationDecision.PENDING`). -/
def allEvaluated (db : DB) (sid : Nat) : Bool :=
  (db.extractedCourses.filter (fun c => c.submission_id == sid)).all fun c =>
    match db.evaluations.find? (fun e => e.extracted_course_id == c.id) with
    | some e => e.decision != .pending
    | none => false

/-- Embeds `evaluate_course` (`POST /evaluate/...`): 404 when the course
does not exist; for an `approved` decision, 400 when
`approved_target_course_id` is falsy (`if not
request.approved_target_course_id`) and 404 when it references no
`TargetCourse`; otherwise upsert the evaluation, and if afterwards every
course of the parent submission is non-pending, mark the submission
`completed` with `completed_at = now`.  Error outcomes return the
unchanged database: both raises happen before any mutation is committed. -/
def evaluate_course (db : DB) (course_id : Nat) (req : EvaluateRequest)
    (evaluator_id : Nat) (now : Nat) : DB × Except HttpError EvalResponse :=
  match db.extractedCourses.find? (fun c => c.id == course_id) with
  | none => (db, .error (.notFound "Course not found"))
  | some ext =>
    if req.decision == .approved && !pyTruthyNat req.approved_target_course_id then
      (db, .error (.badRequest "approved_target_course_id required for approval"))
    else if req.decision == .approved
        && (db.targetCourses.find? (fun t =>
              some t.id == req.approved_target_course_id)).isNone then
      (db, .error (.notFound "Target course not found"))
    else
      let (db1, eid) := upsertEvaluation db course_id req evaluator_id now
      let db2 :=
        if allEvaluated db1 ext.submission_id then
          updSubmission db1 ext.submission_id (fun s =>
            { s with status := .completed, completed_at := some now })
        else db1
      (db2, .ok { evaluation_id := eid, decision := req.decision })

/-- Embeds `update_evaluation` (`PUT /update-decision/...`): 404 when
the evaluation does not exist; otherwise overwrite exactly the request
fields that are not `None` (`is not None` checks, not truthiness), stamp
`evaluator_id` and `decided_at`, commit.  No completion check is run and
no submission row is touched. -/
def update_evaluation (db : DB) (evaluation_id : Nat)
    (req : EvaluationUpdateRequest) (evaluator_id : Nat) (now : Nat) :
    DB × Except HttpError EvalResponse :=
  match db.evaluations.find? (fun e => e.id == evaluation_id) with
  | none => (db, .error (.notFound "Evaluation not found"))
  | some e =>
    let e1 : Evaluation :=
      { e with
          decision := req.decision.getD e.decision
          approved_target_course_id :=
            match req.approved_target_course_id with
            | some t => some t
            | none => e.approved_target_course_id
          evaluator_notes :=
            match req.notes with
            | some n => some n
            | none => e.evaluator_notes
          evaluator_id := some evaluator_id
          decided_at := some now }
    ({ db with
        evaluations := updateWhere db.evaluations (fun x => x.id == evaluation_id)
          (fun _ => e1) },
     .ok { evaluation_id := e.id, decision := e1.decision })

/-! ## PDF text extraction (`services/pdf_parser.py`) -/

/-- Failure outcomes of one extraction strategy: a library exception
(carrying its message) or the `ValueError("No text extracted from PDF")`
raised when the joined text is empty/whitespace-only. -/
inductive StratError where
  | libError (msg : String)
  | noText
deriving DecidableEq, Repr

/-- Embeds `"\n\n".join(parts)`. -/
def joinParts : List String → String
  | [] => ""
  | [p] => p
  | p :: ps => p ++ "\n\n" ++ joinParts ps

/-- Embeds `if not full_text.strip()`: the string is empty or whitespace-only. -/
def pyBlank (s : String) : Bool :=
  s.data.all Char.isWhitespace

/-- The shared body of `_extract_with_pdfplumber` and
`_extract_with_pypdf2`: given the library outcome (`.error msg` for a
raised library exception, `.ok pages` for the per-page
`page.extract_text()` results, `none`/`""` pages dropped by the `if
page_text:` guard), join the parts with `"\n\n"` and fail with
`ValueError` when the result is empty/whitespace-only. -/
def extractPagesText (pages : Except String (List (Option String))) :
    Except StratError String :=
  match pages with
  | .error msg => .error (.libError msg)
  | .ok ps =>
    let full := joinParts (ps.filterMap fun p =>
      match p with
      | some s => if s.data.isEmpty then none else some s
      | none => none)
    if pyBlank full then .error .noText else .ok full

/-- Embeds `PDFParser._extract_with_pdfplumber`. -/
def extract_with_pdfplumber (pages : Except String (List (Option String))) :
    Except StratError String :=
  extractPagesText pages

/-- Embeds `PDFParser._extract_with_pypdf2`. -/
def extract_with_pypdf2 (pages : Except String (List (Option String))) :
    Except StratError String :=
  extractPagesText pages

/-- Failure outcomes of `extract_text`: `FileNotFoundError` and the final
`RuntimeError` wrapping the second strategy's exception. -/
inductive PdfError where
  | fileNotFound (msg : String)
  | runtimeError (msg : String)
deriving DecidableEq, Repr

/-- The exception text of a strategy failure, as interpolated into the
`RuntimeError` message. -/
def stratErrorMsg : StratError → String
  | .libError msg => msg
  | .noText => "No text extracted from PDF"

/-- Embeds `PDFParser.extract_text`: `FileNotFoundError` when the path does not
exist; otherwise try pdfplumber, on any exception fall back to PyPDF2, and
wrap a PyPDF2 failure in `RuntimeError`.  `plumberPages` and `pypdfPages`
are the two libraries' outcomes on this file. -/
def extract_text (fileExists : Bool)
    (plumberPages pypdfPages : Except String (List (Option String))) :
    Except PdfError String :=
  if !fileExists then .error (.fileNotFound "PDF file not found")
  else
    match extract_with_pdfplumber plumberPages with
    | .ok t => .ok t
    | .error _ =>
      match extract_with_pypdf2 pypdfPages with
      | .ok t => .ok t
      | .error e =>
          .error (.runtimeError ("Failed to extract text from PDF: " ++ stratErrorMsg e))

/-! ## Derived definitions and concrete fixtures -/

/-- Concrete database for the C4 witness: one submission with two
extracted courses and a one-entry active catalog. -/
def dbC4 : DB :=
  { submissions := [{ id := 1, student_id := 7, status := .pending }]
    extractedCourses := [{ id := 1, submission_id := 1 }, { id := 2, submission_id := 1 }]
    targetCourses := [{ id := 10, course_code := "CS 200", course_name := "T" }]
    nextCourseId := 3 }

/-- Concrete model answer for the C4 witness: four candidates, so the
persisted batch is truncated at `top_n = 3`. -/
def respC4 : Except Unit (List MatchDict) :=
  .ok [{ target_course_id := some 10, similarity_score := some 85 }, {}, {}, {}]

/-- Concrete database for the C5 witness. -/
def dbC5 : DB :=
  { submissions := [{ id := 1, student_id := 7, status := .ready_for_review }]
    extractedCourses := [{ id := 1, submission_id := 1 }]
    targetCourses := [{ id := 10, course_code := "CS 200", course_name := "T" }]
    nextCourseId := 2 }

/-- Number of `Evaluation` rows referencing the extracted course `cid` —
the spec's unique constraint demands this is at most 1, and the claim
demands exactly 1 for every existing course. -/
def countEvalsFor (db : DB) (cid : Nat) : Nat :=
  (db.evaluations.filter (fun e => e.extracted_course_id == cid)).length

/-- Concrete database for the C6 witness. -/
def dbC6 : DB :=
  { submissions := [{ id := 1, student_id := 7, status := .pending }] }

/-- Concrete database for the C7, C8 and C10 witnesses. -/
def dbC7 : DB :=
  { submissions := [{ id := 1, student_id := 7, status := .in_review }]
    extractedCourses := [{ id := 1, submission_id := 1 }, { id := 2, submission_id := 1 }]
    targetCourses := [{ id := 10, course_code := "CS 200", course_name := "T" }]
    evaluations := [{ id := 1, extracted_course_id := 1 },
                    { id := 2, extracted_course_id := 2, decision := .denied }]
    nextCourseId := 3
    nextEvaluationId := 3 }

/-- Concrete database for the C10 witness: evaluation 2 already approved
with a stored target reference. -/
def dbC10 : DB :=
  { submissions := [{ id := 1, student_id := 7, status := .in_review }]
    extractedCourses := [{ id := 1, submission_id := 1 }, { id := 2, submission_id := 1 }]
    targetCourses := [{ id := 10, course_code := "CS 200", course_name := "T" }]
    evaluations := [{ id := 1, extracted_course_id := 1 },
                    { id := 2, extracted_course_id := 2, decision := .approved,
                      approved_target_course_id := some 10 }]
    nextCourseId := 3
    nextEvaluationId := 3 }

/-- Whether a strategy "yields non-empty, non-whitespace text" on this
file: the library call returns pages whose joined text survives the
blank check. -/
def yieldsText (pages : Except String (List (Option String))) : Bool :=
  match extractPagesText pages with
  | .ok _ => true
  | .error _ => false


/-! ## General lemmas about the embedding -/

theorem find?_updateWhere {α : Type _} {p : α → Bool} {f : α → α} {l : List α} {a : α}
    (hf : ∀ x, p x = true → p (f x) = true) (h : l.find? p = some a) :
    (updateWhere l p f).find? p = some (f a) := by
  induction l with
  | nil => simp [List.find?] at h
  | cons x t ih =>
    by_cases hx : p x = true
    · rw [List.find?_cons_of_pos _ hx] at h
      cases h
      simp only [updateWhere, List.map_cons, if_pos hx]
      exact List.find?_cons_of_pos _ (hf _ hx)
    · rw [List.find?_cons_of_neg _ hx] at h
      simp only [updateWhere, List.map_cons, if_neg hx]
      rw [List.find?_cons_of_neg _ hx]
      exact ih h

@[simp] theorem extractedCourses_updSubmission (db : DB) (sid : Nat) (f) :
    (updSubmission db sid f).extractedCourses = db.extractedCourses := rfl

@[simp] theorem targetCourses_updSubmission (db : DB) (sid : Nat) (f) :
    (updSubmission db sid f).targetCourses = db.targetCourses := rfl

@[simp] theorem courseMatches_updSubmission (db : DB) (sid : Nat) (f) :
    (updSubmission db sid f).courseMatches = db.courseMatches := rfl

@[simp] theorem evaluations_updSubmission (db : DB) (sid : Nat) (f) :
    (updSubmission db sid f).evaluations = db.evaluations := rfl

@[simp] theorem nextMatchId_updSubmission (db : DB) (sid : Nat) (f) :
    (updSubmission db sid f).nextMatchId = db.nextMatchId := rfl

theorem getSubmission_updSubmission {db : DB} {sid : Nat} {s : Submission}
    (f : Submission → Submission) (hid : ∀ x, (f x).id = x.id)
    (h : getSubmission db sid = some s) :
    getSubmission (updSubmission db sid f) sid = some (f s) :=
  find?_updateWhere (fun x hx => by simpa [hid x] using hx) h

/-! ## C1: degraded-mode behaviour of `find_similar_courses` -/

/-- C1 counterexample: with no credential configured (`hasModel = false`),
a non-empty active catalog and a source course, `find_similar_courses`
returns the empty list — it does NOT return synthetic candidate data
derived from catalog order, contradicting the claim that for every
non-empty catalog the result is shaped synthetic data rather than
nothing. -/
theorem C1_counterexample :
    find_similar_courses false {}
      [{ id := 1, course_code := "CS 200", course_name := "Data Structures" }]
      (.ok [{ target_course_id := some 1, similarity_score := some 85 }]) = [] := rfl

/-- C1 (amended): when the model is unavailable (no credential
configured), `find_similar_courses` returns the empty list for every
source course, every catalog, every requested `top_n` and every model
response — the same silent "no matches" degraded outcome as a malformed
model response, not synthetic data. -/
theorem C1_amended_no_model_returns_empty (source : SourceDict)
    (targets : List TargetDict) (resp : Except Unit (List MatchDict)) (top_n : Nat) :
    find_similar_courses false source targets resp top_n = [] := by
  simp [find_similar_courses]

/-! ## C2, C3: orchestrator outcomes on degenerate inputs -/

/-- C2: for every submission that exists but has zero `ExtractedCourse`
rows, `match_courses_for_submission` returns `false`, sets the submission
status to `failed`, and records a non-empty explanatory error message. -/
theorem C2_zero_courses_fails (db : DB) (sid : Nat) (hasModel : Bool)
    (oracle : Nat → Except Unit (List MatchDict)) (s : Submission)
    (hs : getSubmission db sid = some s)
    (hempty : db.extractedCourses.filter (fun c => c.submission_id == sid) = []) :
    (match_courses_for_submission db sid hasModel oracle).2 = false ∧
    ∃ s', getSubmission (match_courses_for_submission db sid hasModel oracle).1 sid
        = some s' ∧
      s'.status = .failed ∧
      ∃ msg, s'.processing_error = some msg ∧ msg ≠ "" := by
  have hrun : match_courses_for_submission db sid hasModel oracle
      = (updSubmission (updSubmission db sid fun t => { t with status := .processing })
          sid (fun t =>
            { t with status := .failed
                     processing_error := some "No courses extracted from transcript" }),
         false) := by
    unfold match_courses_for_submission
    rw [hs]
    simp [hempty]
  have h1 : getSubmission (updSubmission db sid fun t => { t with status := .processing })
      sid = some { s with status := .processing } :=
    getSubmission_updSubmission _ (fun _ => rfl) hs
  have h2 := getSubmission_updSubmission
    (fun t =>
      { t with status := .failed
               processing_error := some "No courses extracted from transcript" })
    (fun _ => rfl) h1
  rw [hrun]
  exact ⟨rfl, _, h2, rfl, "No courses extracted from transcript", rfl, by simp⟩

/-- C2 witness. -/
theorem C2_zero_courses_fails_witness :
    (match_courses_for_submission
        { submissions := [{ id := 1, student_id := 7, status := .pending }] }
        1 true (fun _ => .ok [])).2 = false ∧
    ∃ s', getSubmission (match_courses_for_submission
        { submissions := [{ id := 1, student_id := 7, status := .pending }] }
        1 true (fun _ => .ok [])).1 1 = some s' ∧
      s'.status = .failed ∧
      ∃ msg, s'.processing_error = some msg ∧ msg ≠ "" :=
  C2_zero_courses_fails _ 1 true _ _ rfl rfl

/-- C3: for every submission with at least one `ExtractedCourse`, when the
set of active `TargetCourse` rows is empty, `match_courses_for_submission`
returns `true`, sets the status to `ready_for_review`, and creates no
`CourseMatch` rows (the table is unchanged). -/
theorem C3_empty_catalog_ready (db : DB) (sid : Nat) (hasModel : Bool)
    (oracle : Nat → Except Unit (List MatchDict)) (s : Submission)
    (hs : getSubmission db sid = some s)
    (hne : db.extractedCourses.filter (fun c => c.submission_id == sid) ≠ [])
    (hcat : db.targetCourses.filter (fun tc => tc.is_active == 1) = []) :
    (match_courses_for_submission db sid hasModel oracle).2 = true ∧
    (∃ s', getSubmission (match_courses_for_submission db sid hasModel oracle).1 sid
        = some s' ∧ s'.status = .ready_for_review) ∧
    (match_courses_for_submission db sid hasModel oracle).1.courseMatches
      = db.courseMatches := by
  have hrun : match_courses_for_submission db sid hasModel oracle
      = (updSubmission (updSubmission db sid fun t => { t with status := .processing })
          sid (fun t => { t with status := .ready_for_review }), true) := by
    unfold match_courses_for_submission
    rw [hs]
    simp [hne, hcat]
  have h1 : getSubmission (updSubmission db sid fun t => { t with status := .processing })
      sid = some { s with status := .processing } :=
    getSubmission_updSubmission _ (fun _ => rfl) hs
  have h2 := getSubmission_updSubmission
    (fun t => { t with status := .ready_for_review }) (fun _ => rfl) h1
  rw [hrun]
  exact ⟨rfl, ⟨_, h2, rfl⟩, rfl⟩

/-- C3 witness: two extracted courses, empty active catalog. -/
theorem C3_empty_catalog_ready_witness :
    (match_courses_for_submission
        { submissions := [{ id := 1, student_id := 7, status := .pending }]
          extractedCourses := [{ id := 1, submission_id := 1 }, { id := 2, submission_id := 1 }]
          nextCourseId := 3 }
        1 true (fun _ => .ok [])).2 = true ∧
    (∃ s', getSubmission (match_courses_for_submission
        { submissions := [{ id := 1, student_id := 7, status := .pending }]
          extractedCourses := [{ id := 1, submission_id := 1 }, { id := 2, submission_id := 1 }]
          nextCourseId := 3 }
        1 true (fun _ => .ok [])).1 1 = some s' ∧ s'.status = .ready_for_review) ∧
    (match_courses_for_submission
        { submissions := [{ id := 1, student_id := 7, status := .pending }]
          extractedCourses := [{ id := 1, submission_id := 1 }, { id := 2, submission_id := 1 }]
          nextCourseId := 3 }
        1 true (fun _ => .ok [])).1.courseMatches = [] :=
  C3_empty_catalog_ready _ 1 true _ _ rfl (by simp) rfl

/-! ## C4: contiguity of ranks after a ranking run -/

theorem mkCourseMatches_ecid (ecid s r : Nat) (ms : List MatchDict) :
    ∀ m ∈ mkCourseMatches ecid s r ms, m.extracted_course_id = ecid := by
  induction ms generalizing s r with
  | nil => simp [mkCourseMatches]
  | cons m ms ih =>
    intro x hx
    rcases List.mem_cons.mp hx with rfl | hx'
    · rfl
    · exact ih _ _ x hx'

theorem mkCourseMatches_map_rank (ecid s r : Nat) (ms : List MatchDict) :
    (mkCourseMatches ecid s r ms).map (fun m => m.match_rank)
      = List.range' r ms.length := by
  induction ms generalizing s r with
  | nil => simp [mkCourseMatches]
  | cons m ms ih =>
    simp [mkCourseMatches, List.range'_succ, ih]

theorem mkCourseMatches_id_bounds (ecid s r : Nat) (ms : List MatchDict) :
    ∀ m ∈ mkCourseMatches ecid s r ms, s ≤ m.id ∧ m.id < s + ms.length := by
  induction ms generalizing s r with
  | nil => simp [mkCourseMatches]
  | cons m ms ih =>
    intro x hx
    rcases List.mem_cons.mp hx with rfl | hx'
    · constructor
      · exact Nat.le_refl _
      · simp only [List.length_cons]
        omega
    · have := ih (s + 1) (r + 1) x hx'
      simp only [List.length_cons]
      omega

/-- After `_match_single_course`, the `CourseMatch` rows of the treated
course are exactly the freshly inserted batch. -/
theorem matchSingleCourse_filter_self (db : DB) (ext : ExtractedCourse)
    (tds : List TargetDict) (hasModel : Bool) (resp : Except Unit (List MatchDict)) :
    (matchSingleCourse db ext tds hasModel resp).courseMatches.filter
      (fun m => m.extracted_course_id == ext.id)
    = mkCourseMatches ext.id db.nextMatchId 1
        (find_similar_courses hasModel (sourceDictOf ext) tds resp) := by
  have h1 : (db.courseMatches.filter fun m => !(m.extracted_course_id == ext.id)).filter
      (fun m => m.extracted_course_id == ext.id) = [] := by
    rw [List.filter_eq_nil_iff]
    intro a ha hpa
    have hq := (List.mem_filter.mp ha).2
    rw [hpa] at hq
    simp at hq
  have h2 : (mkCourseMatches ext.id db.nextMatchId 1
        (find_similar_courses hasModel (sourceDictOf ext) tds resp)).filter
      (fun m => m.extracted_course_id == ext.id)
    = mkCourseMatches ext.id db.nextMatchId 1
        (find_similar_courses hasModel (sourceDictOf ext) tds resp) := by
    rw [List.filter_eq_self]
    intro a ha
    rw [mkCourseMatches_ecid _ _ _ _ a ha]
    simp
  simp only [matchSingleCourse, List.filter_append, h1, h2, List.nil_append]

/-- Lemma: `_match_single_course` leaves the `CourseMatch` rows of every other
course untouched. -/
theorem matchSingleCourse_filter_other (db : DB) (ext : ExtractedCourse)
    (tds : List TargetDict) (hasModel : Bool) (resp : Except Unit (List MatchDict))
    (e : Nat) (hne : e ≠ ext.id) :
    (matchSingleCourse db ext tds hasModel resp).courseMatches.filter
      (fun m => m.extracted_course_id == e)
    = db.courseMatches.filter (fun m => m.extracted_course_id == e) := by
  have h2 : (mkCourseMatches ext.id db.nextMatchId 1
        (find_similar_courses hasModel (sourceDictOf ext) tds resp)).filter
      (fun m => m.extracted_course_id == e) = [] := by
    rw [List.filter_eq_nil_iff]
    intro a ha hpa
    rw [mkCourseMatches_ecid _ _ _ _ a ha] at hpa
    have hpe : ext.id = e := by simpa using hpa
    exact hne hpe.symm
  have h1 : (db.courseMatches.filter fun m => !(m.extracted_course_id == ext.id)).filter
      (fun m => m.extracted_course_id == e)
      = db.courseMatches.filter (fun m => m.extracted_course_id == e) := by
    rw [List.filter_filter]
    apply List.filter_congr
    intro m _
    by_cases hm : m.extracted_course_id = e
    · simp [hm, hne]
    · simp [hm]
  simp only [matchSingleCourse, List.filter_append, h1, h2, List.append_nil]

@[simp] theorem matchSingleCourse_extractedCourses (db : DB) (ext tds hasModel resp) :
    (matchSingleCourse db ext tds hasModel resp).extractedCourses
      = db.extractedCourses := rfl

@[simp] theorem matchSingleCourse_submissions (db : DB) (ext tds hasModel resp) :
    (matchSingleCourse db ext tds hasModel resp).submissions = db.submissions := rfl

@[simp] theorem matchSingleCourse_evaluations (db : DB) (ext tds hasModel resp) :
    (matchSingleCourse db ext tds hasModel resp).evaluations = db.evaluations := rfl

@[simp] theorem matchSingleCourse_targetCourses (db : DB) (ext tds hasModel resp) :
    (matchSingleCourse db ext tds hasModel resp).targetCourses = db.targetCourses := rfl

theorem matchAll_submissions (db : DB) (cs : List ExtractedCourse) (tds hasModel oracle) :
    (matchAll db cs tds hasModel oracle).submissions = db.submissions := by
  induction cs generalizing db with
  | nil => rfl
  | cons c cs ih => exact ih (matchSingleCourse db c tds hasModel (oracle c.id))

theorem matchAll_extractedCourses (db : DB) (cs : List ExtractedCourse) (tds hasModel oracle) :
    (matchAll db cs tds hasModel oracle).extractedCourses = db.extractedCourses := by
  induction cs generalizing db with
  | nil => rfl
  | cons c cs ih => exact ih (matchSingleCourse db c tds hasModel (oracle c.id))

theorem matchAll_evaluations (db : DB) (cs : List ExtractedCourse) (tds hasModel oracle) :
    (matchAll db cs tds hasModel oracle).evaluations = db.evaluations := by
  induction cs generalizing db with
  | nil => rfl
  | cons c cs ih => exact ih (matchSingleCourse db c tds hasModel (oracle c.id))

/-- The matching loop leaves the rows of any course whose id is not in the
processed batch untouched. -/
theorem matchAll_filter_not_mem (db : DB) (cs : List ExtractedCourse)
    (tds : List TargetDict) (hasModel : Bool) (oracle : Nat → Except Unit (List MatchDict))
    (e : Nat) (he : e ∉ cs.map (fun c => c.id)) :
    (matchAll db cs tds hasModel oracle).courseMatches.filter
      (fun m => m.extracted_course_id == e)
    = db.courseMatches.filter (fun m => m.extracted_course_id == e) := by
  induction cs generalizing db with
  | nil => rfl
  | cons c cs ih =>
    simp only [List.map_cons, List.mem_cons, not_or] at he
    have hstep : matchAll db (c :: cs) tds hasModel oracle
        = matchAll (matchSingleCourse db c tds hasModel (oracle c.id)) cs tds hasModel oracle := rfl
    rw [hstep, ih (matchSingleCourse db c tds hasModel (oracle c.id)) he.2]
    exact matchSingleCourse_filter_other db c tds hasModel (oracle c.id) e he.1

/-- After the matching loop, each processed course's rows are exactly one
freshly inserted batch (at some autoincrement start). -/
theorem matchAll_filter_of_mem (db : DB) (cs : List ExtractedCourse)
    (tds : List TargetDict) (hasModel : Bool) (oracle : Nat → Except Unit (List MatchDict))
    (hnodup : (cs.map (fun c => c.id)).Nodup) (c : ExtractedCourse) (hc : c ∈ cs) :
    ∃ start, (matchAll db cs tds hasModel oracle).courseMatches.filter
        (fun m => m.extracted_course_id == c.id)
      = mkCourseMatches c.id start 1
          (find_similar_courses hasModel (sourceDictOf c) tds (oracle c.id)) := by
  induction cs generalizing db with
  | nil => cases hc
  | cons x cs ih =>
    rw [List.map_cons] at hnodup
    have hnd := List.nodup_cons.mp hnodup
    have hstep : matchAll db (x :: cs) tds hasModel oracle
        = matchAll (matchSingleCourse db x tds hasModel (oracle x.id)) cs tds hasModel oracle := rfl
    rw [hstep]
    rcases List.mem_cons.mp hc with rfl | hc'
    · refine ⟨db.nextMatchId, ?_⟩
      rw [matchAll_filter_not_mem _ _ _ _ _ _ hnd.1]
      exact matchSingleCourse_filter_self db c tds hasModel (oracle c.id)
    · exact ih (matchSingleCourse db x tds hasModel (oracle x.id)) hnd.2 hc'

/-- C4: after a ranking run of the orchestrator (submission present, at
least one extracted course, non-empty active catalog, distinct course
ids), the ranks of each processed course's persisted `CourseMatch` rows
are exactly the contiguous sequence `1..k` — rank equal to 1-based
position in the returned order, no gaps, no duplicates — where `k` is the
length of the ranking client's answer for that course and `k ≤ 3`, the
requested `top_n`. -/
theorem C4_ranks_contiguous (db : DB) (sid : Nat) (hasModel : Bool)
    (oracle : Nat → Except Unit (List MatchDict)) (s : Submission)
    (hs : getSubmission db sid = some s)
    (hnodup : ((db.extractedCourses.filter (fun c => c.submission_id == sid)).map
        (fun c => c.id)).Nodup)
    (hcat : db.targetCourses.filter (fun tc => tc.is_active == 1) ≠ []) :
    ∀ c ∈ db.extractedCourses.filter (fun c => c.submission_id == sid),
      ((match_courses_for_submission db sid hasModel oracle).1.courseMatches.filter
          (fun m => m.extracted_course_id == c.id)).map (fun m => m.match_rank)
        = List.range' 1 (find_similar_courses hasModel (sourceDictOf c)
            ((db.targetCourses.filter (fun tc => tc.is_active == 1)).map targetDictOf)
            (oracle c.id)).length ∧
      (find_similar_courses hasModel (sourceDictOf c)
          ((db.targetCourses.filter (fun tc => tc.is_active == 1)).map targetDictOf)
          (oracle c.id)).length ≤ 3 := by
  intro c hc
  have hne : db.extractedCourses.filter (fun c => c.submission_id == sid) ≠ [] := by
    intro h
    rw [h] at hc
    cases hc
  have hrun : (match_courses_for_submission db sid hasModel oracle).1
      = updSubmission
          (matchAll (updSubmission db sid fun t => { t with status := .processing })
            (db.extractedCourses.filter (fun c => c.submission_id == sid))
            ((db.targetCourses.filter (fun tc => tc.is_active == 1)).map targetDictOf)
            hasModel oracle)
          sid (fun t => { t with status := .ready_for_review }) := by
    unfold match_courses_for_submission
    rw [hs]
    simp [hne, hcat]
  rw [hrun]
  rw [courseMatches_updSubmission]
  obtain ⟨start, hstart⟩ := matchAll_filter_of_mem
    (updSubmission db sid fun t => { t with status := .processing })
    (db.extractedCourses.filter (fun c => c.submission_id == sid))
    ((db.targetCourses.filter (fun tc => tc.is_active == 1)).map targetDictOf)
    hasModel oracle hnodup c hc
  refine ⟨?_, ?_⟩
  · rw [hstart, mkCourseMatches_map_rank]
  · unfold find_similar_courses
    split
    · simp
    · split
      · simp
      · simp [List.length_take_le]

/-- C4 witness: on `dbC4` with answer `respC4`, course 1's persisted
ranks are `List.range' 1 3 = [1, 2, 3]` (truncated at `top_n = 3`). -/
theorem C4_ranks_contiguous_witness :
    ((match_courses_for_submission dbC4 1 true (fun _ => respC4)).1.courseMatches.filter
        (fun m => m.extracted_course_id == 1)).map (fun m => m.match_rank)
      = List.range' 1 3 ∧
    (find_similar_courses true
        (sourceDictOf { id := 1, submission_id := 1 })
        ((dbC4.targetCourses.filter (fun tc => tc.is_active == 1)).map targetDictOf)
        respC4).length ≤ 3 := by
  have h := C4_ranks_contiguous dbC4 1 true (fun _ => respC4)
    { id := 1, student_id := 7, status := .pending } rfl (by decide) (by decide)
    { id := 1, submission_id := 1 } (by decide)
  exact ⟨h.1.trans (by decide), h.2⟩

/-! ## C5: rematch fully replaces prior matches -/

@[simp] theorem matchSingleCourse_courseMatches (db : DB) (ext tds hasModel resp) :
    (matchSingleCourse db ext tds hasModel resp).courseMatches
    = db.courseMatches.filter (fun m => !(m.extracted_course_id == ext.id))
      ++ mkCourseMatches ext.id db.nextMatchId 1
          (find_similar_courses hasModel (sourceDictOf ext) tds resp) := rfl

@[simp] theorem matchSingleCourse_nextMatchId (db : DB) (ext tds hasModel resp) :
    (matchSingleCourse db ext tds hasModel resp).nextMatchId
    = db.nextMatchId
      + (find_similar_courses hasModel (sourceDictOf ext) tds resp).length := rfl

/-- Autoincrement well-formedness of `CourseMatch` ids is preserved by
`_match_single_course`. -/
theorem wfMatchIds_matchSingleCourse {db : DB} (ext : ExtractedCourse)
    (tds : List TargetDict) (hasModel : Bool) (resp : Except Unit (List MatchDict))
    (h : ∀ m ∈ db.courseMatches, m.id < db.nextMatchId) :
    ∀ m ∈ (matchSingleCourse db ext tds hasModel resp).courseMatches,
      m.id < (matchSingleCourse db ext tds hasModel resp).nextMatchId := by
  intro m hm
  rw [matchSingleCourse_courseMatches] at hm
  rw [matchSingleCourse_nextMatchId]
  rcases List.mem_append.mp hm with h1 | h2
  · have := h m (List.mem_filter.mp h1).1
    omega
  · have := mkCourseMatches_id_bounds _ _ _ _ m h2
    omega

/-- Lemma: `rematch_course` on an existing course runs `_match_single_course`
against the active catalog and returns `true`. -/
theorem rematch_course_eq {db : DB} {cid : Nat} {ext : ExtractedCourse}
    (hext : db.extractedCourses.find? (fun c => c.id == cid) = some ext)
    (hasModel : Bool) (resp : Except Unit (List MatchDict)) :
    rematch_course db cid hasModel resp
    = (matchSingleCourse db ext
        ((db.targetCourses.filter (fun tc => tc.is_active == 1)).map targetDictOf)
        hasModel resp, true) := by
  unfold rematch_course
  rw [hext]

/-- Lemma: `rematch_course` leaves the extracted-course table unchanged. -/
theorem rematch_course_fst_extractedCourses (db : DB) (cid : Nat) (hasModel : Bool)
    (resp : Except Unit (List MatchDict)) :
    (rematch_course db cid hasModel resp).1.extractedCourses = db.extractedCourses := by
  unfold rematch_course
  cases h : db.extractedCourses.find? (fun c => c.id == cid) <;> rfl

/-- Autoincrement well-formedness of `CourseMatch` ids is preserved by
`rematch_course`. -/
theorem wfMatchIds_rematch (db : DB) (cid : Nat) (hasModel : Bool)
    (resp : Except Unit (List MatchDict))
    (hwf : ∀ m ∈ db.courseMatches, m.id < db.nextMatchId) :
    ∀ m ∈ (rematch_course db cid hasModel resp).1.courseMatches,
      m.id < (rematch_course db cid hasModel resp).1.nextMatchId := by
  unfold rematch_course
  cases h : db.extractedCourses.find? (fun c => c.id == cid)
  · exact hwf
  · exact wfMatchIds_matchSingleCourse _ _ hasModel resp hwf

/-- Every `CourseMatch` row of the rematched course after a rematch run is
freshly inserted: its id is at least the pre-run autoincrement counter. -/
theorem rematch_new_ids_ge (db : DB) (cid : Nat) (hasModel : Bool)
    (resp : Except Unit (List MatchDict)) (ext : ExtractedCourse)
    (hext : db.extractedCourses.find? (fun c => c.id == cid) = some ext) :
    ∀ m ∈ (rematch_course db cid hasModel resp).1.courseMatches.filter
        (fun m => m.extracted_course_id == cid),
      db.nextMatchId ≤ m.id := by
  intro m hm
  have hecid : ext.id = cid := by simpa using List.find?_some hext
  simp only [rematch_course_eq hext hasModel resp] at hm
  rw [← hecid] at hm
  rw [matchSingleCourse_filter_self] at hm
  exact (mkCourseMatches_id_bounds _ _ _ _ m hm).1

/-- C5: re-running ranking for an existing course fully replaces its prior
`CourseMatch` rows — with well-formed autoincrement ids, the set of ids
for the course after the second run is disjoint from the set after the
first (every pre-existing row is deleted before the new batch is
inserted). -/
theorem C5_rematch_replaces (db : DB) (cid : Nat) (hasModel : Bool)
    (r1 r2 : Except Unit (List MatchDict))
    (hwf : ∀ m ∈ db.courseMatches, m.id < db.nextMatchId)
    (hc : (db.extractedCourses.find? (fun c => c.id == cid)).isSome) :
    (rematch_course db cid hasModel r1).2 = true ∧
    (rematch_course (rematch_course db cid hasModel r1).1 cid hasModel r2).2 = true ∧
    ∀ m2 ∈ (rematch_course (rematch_course db cid hasModel r1).1 cid hasModel
        r2).1.courseMatches.filter (fun m => m.extracted_course_id == cid),
    ∀ m1 ∈ (rematch_course db cid hasModel r1).1.courseMatches.filter
        (fun m => m.extracted_course_id == cid),
      m2.id ≠ m1.id := by
  obtain ⟨ext, hext⟩ := Option.isSome_iff_exists.mp hc
  have hwf1 := wfMatchIds_rematch db cid hasModel r1 hwf
  have hext1 : (rematch_course db cid hasModel r1).1.extractedCourses.find?
      (fun c => c.id == cid) = some ext := by
    rw [rematch_course_fst_extractedCourses]
    exact hext
  refine ⟨?_, ?_, ?_⟩
  · rw [rematch_course_eq hext hasModel r1]
  · rw [rematch_course_eq hext1 hasModel r2]
  · intro m2 hm2 m1 hm1
    have hlt1 : m1.id < (rematch_course db cid hasModel r1).1.nextMatchId :=
      hwf1 m1 (List.mem_filter.mp hm1).1
    have hge2 : (rematch_course db cid hasModel r1).1.nextMatchId ≤ m2.id :=
      rematch_new_ids_ge _ cid hasModel r2 ext hext1 m2 hm2
    omega

/-- C5 witness: a one-course database with a fresh id counter; the two
runs' id sets (`[1]` then `[2, 3]`) are disjoint. -/
theorem C5_rematch_replaces_witness :
    (rematch_course dbC5 1 true (.ok [{ target_course_id := some 10 }])).2 = true ∧
    (rematch_course (rematch_course dbC5 1 true (.ok [{ target_course_id := some 10 }])).1
        1 true (.ok [{ target_course_id := some 10 }, {}])).2 = true ∧
    ∀ m2 ∈ (rematch_course
        (rematch_course dbC5 1 true (.ok [{ target_course_id := some 10 }])).1
        1 true (.ok [{ target_course_id := some 10 }, {}])).1.courseMatches.filter
          (fun m => m.extracted_course_id == 1),
    ∀ m1 ∈ (rematch_course dbC5 1 true
        (.ok [{ target_course_id := some 10 }])).1.courseMatches.filter
          (fun m => m.extracted_course_id == 1),
      m2.id ≠ m1.id :=
  C5_rematch_replaces dbC5 1 true (.ok [{ target_course_id := some 10 }])
    (.ok [{ target_course_id := some 10 }, {}]) (by simp [dbC5]) rfl

/-! ## C6: exactly one pending evaluation per extracted course -/

/-- The invariants carried through the materialisation loop: autoincrement
well-formedness of course and evaluation ids, the exactly-one-evaluation
property, the unique-reference constraint, and pending-ness of every row
the loop creates. -/
theorem saveExtractedCourses_invariants (sid : Nat) (ds : List CourseData) :
    ∀ db : DB,
    (∀ c ∈ db.extractedCourses, c.id < db.nextCourseId) →
    (∀ e ∈ db.evaluations, e.extracted_course_id < db.nextCourseId) →
    (∀ c ∈ db.extractedCourses, countEvalsFor db c.id = 1) →
    (db.evaluations.map (fun e => e.extracted_course_id)).Nodup →
    (∀ c ∈ (saveExtractedCourses db sid ds).extractedCourses,
        c.id < (saveExtractedCourses db sid ds).nextCourseId) ∧
    (∀ e ∈ (saveExtractedCourses db sid ds).evaluations,
        e.extracted_course_id < (saveExtractedCourses db sid ds).nextCourseId) ∧
    (∀ c ∈ (saveExtractedCourses db sid ds).extractedCourses,
        countEvalsFor (saveExtractedCourses db sid ds) c.id = 1) ∧
    ((saveExtractedCourses db sid ds).evaluations.map
        (fun e => e.extracted_course_id)).Nodup ∧
    (∀ e ∈ (saveExtractedCourses db sid ds).evaluations,
        e ∈ db.evaluations ∨ e.decision = .pending) := by
  induction ds with
  | nil =>
    intro db hwC hwE hone huniq
    exact ⟨hwC, hwE, hone, huniq, fun e he => .inl he⟩
  | cons d ds ih =>
    intro db hwC hwE hone huniq
    set c : ExtractedCourse :=
      { id := db.nextCourseId
        submission_id := sid
        course_code := d.course_code
        course_name := d.course_name
        credits := d.credits
        grade := d.grade
        source_university := d.university_name } with hc
    set e : Evaluation :=
      { id := db.nextEvaluationId
        extracted_course_id := c.id
        decision := .pending } with he
    set db1 : DB :=
      { db with
          extractedCourses := db.extractedCourses ++ [c]
          evaluations := db.evaluations ++ [e]
          nextCourseId := db.nextCourseId + 1
          nextEvaluationId := db.nextEvaluationId + 1 } with hdb1
    have hsave : saveExtractedCourses db sid (d :: ds) = saveExtractedCourses db1 sid ds := rfl
    have hwC1 : ∀ x ∈ db1.extractedCourses, x.id < db1.nextCourseId := by
      intro x hx
      rcases List.mem_append.mp hx with hx | hx
      · have := hwC x hx
        simp only [hdb1]
        omega
      · rcases List.mem_singleton.mp hx with rfl
        simp [hdb1, hc]
    have hwE1 : ∀ x ∈ db1.evaluations, x.extracted_course_id < db1.nextCourseId := by
      intro x hx
      rcases List.mem_append.mp hx with hx | hx
      · have := hwE x hx
        simp only [hdb1]
        omega
      · rcases List.mem_singleton.mp hx with rfl
        simp [hdb1, he, hc]
    have hcount1 : ∀ x ∈ db1.extractedCourses, countEvalsFor db1 x.id = 1 := by
      intro x hx
      rcases List.mem_append.mp hx with hx | hx
      · have hxlt : x.id < db.nextCourseId := hwC x hx
        have hne : (e.extracted_course_id == x.id) = false := by
          simp only [he, hc]
          simp only [beq_eq_false_iff_ne]
          omega
        have : countEvalsFor db1 x.id = countEvalsFor db x.id := by
          simp [countEvalsFor, hdb1, List.filter_append, hne]
        rw [this]
        exact hone x hx
      · rcases List.mem_singleton.mp hx with rfl
        have hold : db.evaluations.filter (fun y => y.extracted_course_id == c.id) = [] := by
          rw [List.filter_eq_nil_iff]
          intro y hy hpy
          have := hwE y hy
          have : y.extracted_course_id = c.id := by simpa using hpy
          simp only [hc] at this
          omega
        simp [countEvalsFor, hdb1, List.filter_append, hold, he]
    have huniq1 : (db1.evaluations.map (fun y => y.extracted_course_id)).Nodup := by
      simp only [hdb1, List.map_append, List.map_cons, List.map_nil]
      rw [List.nodup_append]
      refine ⟨huniq, List.nodup_singleton _, ?_⟩
      intro a ha hb
      rcases List.mem_map.mp ha with ⟨y, hy, rfl⟩
      have h1 : y.extracted_course_id = e.extracted_course_id := List.mem_singleton.mp hb
      have h2 : e.extracted_course_id = db.nextCourseId := rfl
      have h3 := hwE y hy
      omega
    have result := ih db1 hwC1 hwE1 hcount1 huniq1
    rw [hsave]
    refine ⟨result.1, result.2.1, result.2.2.1, result.2.2.2.1, ?_⟩
    intro x hx
    rcases result.2.2.2.2 x hx with hx1 | hx1
    · rcases List.mem_append.mp hx1 with hx2 | hx2
      · exact .inl hx2
      · rcases List.mem_singleton.mp hx2 with rfl
        exact .inr rfl
    · exact .inr hx1

/-- The orchestrator never touches the evaluations table. -/
theorem match_courses_fst_evaluations (db : DB) (sid : Nat) (hasModel : Bool)
    (oracle : Nat → Except Unit (List MatchDict)) :
    (match_courses_for_submission db sid hasModel oracle).1.evaluations
      = db.evaluations := by
  unfold match_courses_for_submission
  cases h : getSubmission db sid
  · rfl
  · dsimp only
    split
    · rfl
    · split
      · rfl
      · simp [matchAll_evaluations]

/-- The orchestrator never touches the extracted-course table. -/
theorem match_courses_fst_extractedCourses (db : DB) (sid : Nat) (hasModel : Bool)
    (oracle : Nat → Except Unit (List MatchDict)) :
    (match_courses_for_submission db sid hasModel oracle).1.extractedCourses
      = db.extractedCourses := by
  unfold match_courses_for_submission
  cases h : getSubmission db sid
  · rfl
  · dsimp only
    split
    · rfl
    · split
      · rfl
      · simp [matchAll_extractedCourses]

theorem process_none (db : DB) (sid : Nat) (pdfText : Except String Unit)
    (courses_data : List CourseData) (hasModel : Bool)
    (oracle : Nat → Except Unit (List MatchDict))
    (h : getSubmission db sid = none) :
    process_transcript_background db sid pdfText courses_data hasModel oracle = db := by
  unfold process_transcript_background
  rw [h]

theorem process_pdf_error (db : DB) (sid : Nat) (msg : String)
    (courses_data : List CourseData) (hasModel : Bool)
    (oracle : Nat → Except Unit (List MatchDict)) (s : Submission)
    (h : getSubmission db sid = some s) :
    process_transcript_background db sid (.error msg) courses_data hasModel oracle
    = updSubmission (updSubmission db sid fun t => { t with status := .processing })
        sid (fun t => { t with status := .failed, processing_error := some msg }) := by
  unfold process_transcript_background
  rw [h]

theorem process_ok (db : DB) (sid : Nat) (courses_data : List CourseData)
    (hasModel : Bool) (oracle : Nat → Except Unit (List MatchDict)) (s : Submission)
    (h : getSubmission db sid = some s) :
    process_transcript_background db sid (.ok ()) courses_data hasModel oracle
    = (match_courses_for_submission
        (saveExtractedCourses
          (updSubmission db sid fun t => { t with status := .processing }) sid courses_data)
        sid hasModel oracle).1 := by
  unfold process_transcript_background
  rw [h]

/-- C6: after `process_transcript_background` completes on a database
satisfying the evaluation invariants, every `ExtractedCourse` row has
exactly one `Evaluation` row (never zero, never more than one — the
unique-reference constraint on `extracted_course_id` holds as the `Nodup`
conjunct), and every evaluation row created by the run is in `pending`
state.  The whole batch is one state transition (one commit), so no
intermediate partially-populated course list is observable. -/
theorem C6_exactly_one_pending_evaluation (db : DB) (sid : Nat)
    (pdfText : Except String Unit) (courses_data : List CourseData)
    (hasModel : Bool) (oracle : Nat → Except Unit (List MatchDict))
    (hwC : ∀ c ∈ db.extractedCourses, c.id < db.nextCourseId)
    (hwE : ∀ e ∈ db.evaluations, e.extracted_course_id < db.nextCourseId)
    (hone : ∀ c ∈ db.extractedCourses, countEvalsFor db c.id = 1)
    (huniq : (db.evaluations.map (fun e => e.extracted_course_id)).Nodup)
    (db' : DB)
    (hrun : process_transcript_background db sid pdfText courses_data hasModel oracle
      = db') :
    (∀ c ∈ db'.extractedCourses, countEvalsFor db' c.id = 1) ∧
    (db'.evaluations.map (fun e => e.extracted_course_id)).Nodup ∧
    (∀ e ∈ db'.evaluations, e ∈ db.evaluations ∨ e.decision = .pending) := by
  rcases hq : getSubmission db sid with _ | s
  · rw [process_none db sid pdfText courses_data hasModel oracle hq] at hrun
    subst hrun
    exact ⟨hone, huniq, fun e he => .inl he⟩
  · cases pdfText with
    | error msg =>
      rw [process_pdf_error db sid msg courses_data hasModel oracle s hq] at hrun
      subst hrun
      exact ⟨hone, huniq, fun e he => .inl he⟩
    | ok u =>
      cases u
      rw [process_ok db sid courses_data hasModel oracle s hq] at hrun
      subst hrun
      obtain ⟨h1, h2, h3, h4, h5⟩ := saveExtractedCourses_invariants sid courses_data
        (updSubmission db sid fun t => { t with status := .processing })
        hwC hwE hone huniq
      have hev := match_courses_fst_evaluations
        (saveExtractedCourses
          (updSubmission db sid fun t => { t with status := .processing }) sid courses_data)
        sid hasModel oracle
      have hec := match_courses_fst_extractedCourses
        (saveExtractedCourses
          (updSubmission db sid fun t => { t with status := .processing }) sid courses_data)
        sid hasModel oracle
      refine ⟨?_, ?_, ?_⟩
      · intro c hc
        rw [hec] at hc
        have := h3 c hc
        simpa [countEvalsFor, hev] using this
      · rw [hev]
        exact h4
      · intro e he
        rw [hev] at he
        exact h5 e he

/-- C6 witness: processing two extracted dictionaries against an empty
database yields two courses, each with exactly one pending evaluation. -/
theorem C6_exactly_one_pending_evaluation_witness :
    (∀ c ∈ (process_transcript_background dbC6 1 (.ok ())
        [{ course_code := some "CS 101" }, {}] false (fun _ => .ok [])).extractedCourses,
      countEvalsFor (process_transcript_background dbC6 1 (.ok ())
        [{ course_code := some "CS 101" }, {}] false (fun _ => .ok [])) c.id = 1) ∧
    ((process_transcript_background dbC6 1 (.ok ())
        [{ course_code := some "CS 101" }, {}] false (fun _ => .ok [])).evaluations.map
      (fun e => e.extracted_course_id)).Nodup ∧
    (∀ e ∈ (process_transcript_background dbC6 1 (.ok ())
        [{ course_code := some "CS 101" }, {}] false (fun _ => .ok [])).evaluations,
      e ∈ dbC6.evaluations ∨ e.decision = .pending) :=
  C6_exactly_one_pending_evaluation dbC6 1 (.ok ())
    [{ course_code := some "CS 101" }, {}] false (fun _ => .ok [])
    (by simp [dbC6]) (by simp [dbC6]) (by simp [dbC6]) (by simp [dbC6]) _ rfl

/-! ## C7, C8: the decide endpoint -/

/-- C7: deciding `approved` with no `approved_target_course_id` supplied
always fails with the 400 validation error and returns the database
unchanged — the raise happens before any persistence. -/
theorem C7_approved_requires_target (db : DB) (cid : Nat) (notes : Option String)
    (u now : Nat)
    (hc : (db.extractedCourses.find? (fun c => c.id == cid)).isSome) :
    evaluate_course db cid
      { decision := .approved, approved_target_course_id := none, notes := notes } u now
    = (db, .error (.badRequest "approved_target_course_id required for approval")) := by
  obtain ⟨ext, hext⟩ := Option.isSome_iff_exists.mp hc
  unfold evaluate_course
  rw [hext]
  rfl

/-- C7 witness. -/
theorem C7_approved_requires_target_witness :
    evaluate_course dbC7 1
      { decision := .approved, approved_target_course_id := none, notes := none } 5 100
    = (dbC7, .error (.badRequest "approved_target_course_id required for approval")) :=
  C7_approved_requires_target dbC7 1 none 5 100 rfl

@[simp] theorem upsertEvaluation_submissions (db : DB) (cid : Nat)
    (req : EvaluateRequest) (u now : Nat) :
    (upsertEvaluation db cid req u now).1.submissions = db.submissions := by
  unfold upsertEvaluation
  cases h : db.evaluations.find? (fun e => e.extracted_course_id == cid) <;> rfl

@[simp] theorem allEvaluated_updSubmission (db : DB) (sid : Nat) (f) (x : Nat) :
    allEvaluated (updSubmission db sid f) x = allEvaluated db x := rfl

theorem getSubmission_congr {db1 db2 : DB} (h : db1.submissions = db2.submissions)
    (sid : Nat) : getSubmission db1 sid = getSubmission db2 sid := by
  unfold getSubmission
  rw [h]

/-- Reduction of `evaluate_course` once the course lookup has succeeded. -/
theorem evaluate_course_some (db : DB) (cid : Nat) (req : EvaluateRequest)
    (u now : Nat) (ext : ExtractedCourse)
    (hext : db.extractedCourses.find? (fun c => c.id == cid) = some ext) :
    evaluate_course db cid req u now
    = (if (req.decision == .approved && !pyTruthyNat req.approved_target_course_id)
          = true then
        (db, .error (.badRequest "approved_target_course_id required for approval"))
      else if (req.decision == .approved
          && (db.targetCourses.find? (fun t =>
                some t.id == req.approved_target_course_id)).isNone) = true then
        (db, .error (.notFound "Target course not found"))
      else
        ((if allEvaluated (upsertEvaluation db cid req u now).1 ext.submission_id
              = true then
            updSubmission (upsertEvaluation db cid req u now).1 ext.submission_id
              (fun s => { s with status := .completed, completed_at := some now })
          else (upsertEvaluation db cid req u now).1),
         .ok { evaluation_id := (upsertEvaluation db cid req u now).2,
               decision := req.decision })) := by
  unfold evaluate_course
  rw [hext]

/-- C8: for every successful decide call, if afterwards every extracted
course of the parent submission has a non-pending decision the submission
is marked `completed` with `completed_at = now`; if at least one course is
still pending the submission row is unchanged (same status, same
completion timestamp) — so the completion transition fires exactly on the
decision that completes the last pending course. -/
theorem C8_completion_transition (db : DB) (cid : Nat) (req : EvaluateRequest)
    (u now : Nat) (ext : ExtractedCourse)
    (hext : db.extractedCourses.find? (fun c => c.id == cid) = some ext)
    (s : Submission) (hs : getSubmission db ext.submission_id = some s)
    (db' : DB) (r : EvalResponse)
    (hrun : evaluate_course db cid req u now = (db', .ok r)) :
    (allEvaluated db' ext.submission_id = true →
      ∃ s', getSubmission db' ext.submission_id = some s' ∧
        s'.status = .completed ∧ s'.completed_at = some now) ∧
    (allEvaluated db' ext.submission_id = false →
      ∃ s', getSubmission db' ext.submission_id = some s' ∧
        s'.status = s.status ∧ s'.completed_at = s.completed_at) := by
  rw [evaluate_course_some db cid req u now ext hext] at hrun
  by_cases h1 : (req.decision == .approved && !pyTruthyNat req.approved_target_course_id)
      = true
  · rw [if_pos h1] at hrun
    simp at hrun
  · rw [if_neg h1] at hrun
    by_cases h2 : (req.decision == .approved
        && (db.targetCourses.find? (fun t =>
              some t.id == req.approved_target_course_id)).isNone) = true
    · rw [if_pos h2] at hrun
      simp at hrun
    · rw [if_neg h2] at hrun
      simp only [Prod.mk.injEq, Except.ok.injEq] at hrun
      obtain ⟨hdb, -⟩ := hrun
      subst hdb
      have hsub1 : (upsertEvaluation db cid req u now).1.submissions = db.submissions :=
        upsertEvaluation_submissions db cid req u now
      have hget1 : getSubmission (upsertEvaluation db cid req u now).1 ext.submission_id
          = some s := by
        rw [getSubmission_congr hsub1]
        exact hs
      by_cases hA : allEvaluated (upsertEvaluation db cid req u now).1 ext.submission_id
          = true
      · rw [if_pos hA]
        constructor
        · intro _
          exact ⟨_, getSubmission_updSubmission _ (fun _ => rfl) hget1, rfl, rfl⟩
        · intro hfalse
          rw [allEvaluated_updSubmission, hA] at hfalse
          cases hfalse
      · rw [if_neg hA]
        constructor
        · intro htrue
          exact absurd htrue hA
        · intro _
          exact ⟨s, hget1, rfl, rfl⟩

/-- C8 witness: in `dbC7` course 2 is already decided, so deciding course
1 completes the submission; the theorem's conclusion holds for that run. -/
theorem C8_completion_transition_witness :
    (allEvaluated (evaluate_course dbC7 1 { decision := .denied } 5 100).1 1 = true →
      ∃ s', getSubmission (evaluate_course dbC7 1 { decision := .denied } 5 100).1 1
          = some s' ∧ s'.status = .completed ∧ s'.completed_at = some 100) ∧
    (allEvaluated (evaluate_course dbC7 1 { decision := .denied } 5 100).1 1 = false →
      ∃ s', getSubmission (evaluate_course dbC7 1 { decision := .denied } 5 100).1 1
          = some s' ∧
        s'.status = SubmissionStatus.in_review ∧ s'.completed_at = none) :=
  C8_completion_transition dbC7 1 { decision := .denied } 5 100
    { id := 1, submission_id := 1 } rfl
    { id := 1, student_id := 7, status := .in_review } rfl _ _ rfl

/-! ## C10: the update-decision endpoint diverges from decide -/

/-- Reduction of `update_evaluation` once the evaluation lookup has
succeeded. -/
theorem update_evaluation_some (db : DB) (eid : Nat)
    (req : EvaluationUpdateRequest) (u now : Nat) (e : Evaluation)
    (he : db.evaluations.find? (fun x => x.id == eid) = some e) :
    update_evaluation db eid req u now
    = ({ db with
          evaluations := updateWhere db.evaluations (fun x => x.id == eid)
            (fun _ =>
              { e with
                  decision := req.decision.getD e.decision
                  approved_target_course_id :=
                    match req.approved_target_course_id with
                    | some t => some t
                    | none => e.approved_target_course_id
                  evaluator_notes :=
                    match req.notes with
                    | some n => some n
                    | none => e.evaluator_notes
                  evaluator_id := some u
                  decided_at := some now }) },
       .ok { evaluation_id := e.id, decision := req.decision.getD e.decision }) := by
  unfold update_evaluation
  rw [he]

/-- C10: updating an existing evaluation to a non-approved decision via
`update_evaluation` succeeds, retains any previously stored
`approved_target_course_id` (it is not cleared to null, unlike
`evaluate_course`), and never touches any submission row — the
all-courses-decided check is not re-run, so status and completion
timestamp are unchanged even when the update makes the last pending
course non-pending. -/
theorem C10_update_retains_target_and_status (db : DB) (eid : Nat)
    (d : EvaluationDecision) (hd : d ≠ .approved) (notes : Option String)
    (u now : Nat) (e : Evaluation)
    (he : db.evaluations.find? (fun x => x.id == eid) = some e) :
    (update_evaluation db eid
        { decision := some d, approved_target_course_id := none, notes := notes }
        u now).2
      = .ok { evaluation_id := e.id, decision := d } ∧
    (update_evaluation db eid
        { decision := some d, approved_target_course_id := none, notes := notes }
        u now).1.submissions = db.submissions ∧
    ∃ e', (update_evaluation db eid
        { decision := some d, approved_target_course_id := none, notes := notes }
        u now).1.evaluations.find? (fun x => x.id == eid) = some e' ∧
      e'.decision = d ∧
      e'.approved_target_course_id = e.approved_target_course_id := by
  rw [update_evaluation_some db eid
    { decision := some d, approved_target_course_id := none, notes := notes } u now e he]
  refine ⟨rfl, rfl, ?_⟩
  have hid : (e.id == eid) = true := by
    have h := @List.find?_some Evaluation (fun x => x.id == eid) e db.evaluations he
    simpa using h
  refine ⟨_, find?_updateWhere ?_ he, rfl, rfl⟩
  intro x hx
  simpa using hid

/-- C10 witness: evaluation 2 of `dbC10` holds an approved target; after
updating it to `denied` the target reference is retained and the
submission table is untouched. -/
theorem C10_update_retains_target_and_status_witness :
    (update_evaluation dbC10 2
        { decision := some .denied, approved_target_course_id := none, notes := none }
        5 200).2
      = .ok { evaluation_id := 2, decision := .denied } ∧
    (update_evaluation dbC10 2
        { decision := some .denied, approved_target_course_id := none, notes := none }
        5 200).1.submissions = dbC10.submissions ∧
    ∃ e', (update_evaluation dbC10 2
        { decision := some .denied, approved_target_course_id := none, notes := none }
        5 200).1.evaluations.find? (fun x => x.id == 2) = some e' ∧
      e'.decision = .denied ∧
      e'.approved_target_course_id = some 10 :=
  C10_update_retains_target_and_status dbC10 2 .denied (by decide) none 5 200
    { id := 2, extracted_course_id := 2, decision := .approved,
      approved_target_course_id := some 10 } rfl

/-! ## C9: the document text extractor -/

@[simp] theorem extract_with_pdfplumber_eq (pages) :
    extract_with_pdfplumber pages = extractPagesText pages := rfl

@[simp] theorem extract_with_pypdf2_eq (pages) :
    extract_with_pypdf2 pages = extractPagesText pages := rfl

/-- C9: `extract_text` fails with the `FileNotFoundError` exactly when the
location references no existing document; otherwise it attempts the
primary strategy and, on any failure of it, the secondary; the final
(`RuntimeError`-wrapped) failure happens exactly when neither strategy
yields non-empty, non-whitespace text.  The embedding is a pure function
of the file's contents, with no side effects. -/
theorem C9_extract_text_contract (fileExists : Bool)
    (plumberPages pypdfPages : Except String (List (Option String))) :
    ((∃ m, extract_text fileExists plumberPages pypdfPages = .error (.fileNotFound m))
      ↔ fileExists = false) ∧
    (fileExists = true →
      ((∃ m, extract_text fileExists plumberPages pypdfPages
          = .error (.runtimeError m))
        ↔ (yieldsText plumberPages = false ∧ yieldsText pypdfPages = false))) ∧
    (fileExists = true → ∀ t, extract_with_pdfplumber plumberPages = .ok t →
      extract_text fileExists plumberPages pypdfPages = .ok t) ∧
    (fileExists = true → ∀ e t, extract_with_pdfplumber plumberPages = .error e →
      extract_with_pypdf2 pypdfPages = .ok t →
      extract_text fileExists plumberPages pypdfPages = .ok t) := by
  cases fileExists with
  | false =>
    refine ⟨⟨fun _ => rfl, fun _ => ⟨"PDF file not found", rfl⟩⟩, ?_, ?_, ?_⟩
    · intro h
      simp at h
    · intro h
      simp at h
    · intro h
      simp at h
  | true =>
    cases hp : extractPagesText plumberPages with
    | ok t1 =>
      have hval : extract_text true plumberPages pypdfPages = .ok t1 := by
        simp [extract_text, hp]
      refine ⟨?_, ?_, ?_, ?_⟩
      · rw [hval]
        simp
      · intro _
        constructor
        · rintro ⟨m, hm⟩
          rw [hval] at hm
          exact Except.noConfusion hm
        · rintro ⟨h1, _⟩
          simp [yieldsText, hp] at h1
      · intro _ t ht
        rw [extract_with_pdfplumber_eq, hp, Except.ok.injEq] at ht
        rw [hval, Except.ok.injEq]
        exact ht
      · intro _ e t hpe _
        rw [extract_with_pdfplumber_eq, hp] at hpe
        exact Except.noConfusion hpe
    | error e1 =>
      cases hq : extractPagesText pypdfPages with
      | ok t2 =>
        have hval : extract_text true plumberPages pypdfPages = .ok t2 := by
          simp [extract_text, hp, hq]
        refine ⟨?_, ?_, ?_, ?_⟩
        · rw [hval]
          simp
        · intro _
          constructor
          · rintro ⟨m, hm⟩
            rw [hval] at hm
            exact Except.noConfusion hm
          · rintro ⟨_, h2⟩
            simp [yieldsText, hq] at h2
        · intro _ t ht
          rw [extract_with_pdfplumber_eq, hp] at ht
          exact Except.noConfusion ht
        · intro _ e t _ ht
          rw [extract_with_pypdf2_eq, hq, Except.ok.injEq] at ht
          rw [hval, Except.ok.injEq]
          exact ht
      | error e2 =>
        have hval : extract_text true plumberPages pypdfPages
            = .error (.runtimeError ("Failed to extract text from PDF: "
                ++ stratErrorMsg e2)) := by
          simp [extract_text, hp, hq]
        refine ⟨?_, ?_, ?_, ?_⟩
        · rw [hval]
          simp
        · intro _
          constructor
          · intro _
            exact ⟨by simp [yieldsText, hp], by simp [yieldsText, hq]⟩
          · intro _
            exact ⟨_, hval⟩
        · intro _ t ht
          rw [extract_with_pdfplumber_eq, hp] at ht
          exact Except.noConfusion ht
        · intro _ e t _ ht
          rw [extract_with_pypdf2_eq, hq] at ht
          exact Except.noConfusion ht

/-- C9 witness: an existing file whose primary strategy yields one page of
text while the secondary library raises; `extract_text` returns the
primary text. -/
theorem C9_extract_text_contract_witness :
    extract_with_pdfplumber (.ok [some "Transcript text"]) = .ok "Transcript text" ∧
    extract_text true (.ok [some "Transcript text"]) (.error "boom")
      = .ok "Transcript text" :=
  ⟨rfl, (C9_extract_text_contract true (.ok [some "Transcript text"])
    (.error "boom")).2.2.1 rfl "Transcript text" rfl⟩

end ProcessMaker
